import Mathlib

/-!
Verification of the blob-lease reconciliation engine of
terraform-provider-blobleas.

The Go code under internal/provider is shallowly embedded here.  Remote
calls made by the Azure client (container create, blob upload, lease
acquire/renew/release, get-properties, blob delete) are modelled by an
oracle record (ClientEnv) giving the outcome of each call site, and every
embedded function additionally returns the list of remote calls it
performed (a CallEvent trace), so that frame properties (what an
operation may touch remotely) are provable.
-/

namespace Blobleas

/-- Substring test on character lists, mirroring Go strings.Contains. -/
def strPrefixOf : List Char → List Char → Bool
  | [], _ => true
  | _ :: _, [] => false
  | a :: as, b :: bs => a == b && strPrefixOf as bs

/-- Helper for strContains: does sub occur in any suffix. -/
def strContainsAux (sub : List Char) : List Char → Bool
  | [] => strPrefixOf sub []
  | c :: rest => strPrefixOf sub (c :: rest) || strContainsAux sub rest

/-- Go strings.Contains s sub. -/
def strContains (s sub : String) : Bool :=
  strContainsAux sub.data s.data

/-- Blob properties as returned by GetProperties: the lease state pointer
(nil modelled as none) and the ETag. -/
structure BlobProps where
  leaseState : Option String
  etag : String
deriving DecidableEq

/-- One remote call performed by the client, with its arguments. -/
inductive CallEvent where
  | createContainer (account container : String)
  | upload (account container blob content : String)
  | acquireLease (account container blob leaseID : String) (duration : Int)
  | renewLease (account container blob leaseID : String)
  | releaseLease (account container blob leaseID : String)
  | getProperties (account container blob : String)
  | deleteBlob (account container blob : String)
deriving DecidableEq

/-- Outcomes of the remote calls a single client-function invocation can
make.  none / Except.ok means the call succeeded.  The acquire outcome may
depend on the proposed lease ID and duration. -/
structure ClientEnv where
  newClient : Option String
  createContainer : Option String
  upload : Except String String
  newLeaseClient : Option String
  acquire : String → Int → Except String String
  getProps : Except String BlobProps
  renew : Except String String
  release : Option String
  deleteCall : Option String

/-- BlobLeaseConfig from the Go client. -/
structure BlobLeaseConfig where
  storageAccount : String
  containerName : String
  blobName : String
  content : String
  leaseID : String
  leaseDuration : Int
deriving DecidableEq

/-- BlobLeaseResult from the Go client. -/
structure BlobLeaseResult where
  leaseID : String
  blobURL : String
  etag : String
  leaseState : String
deriving DecidableEq

/-- Result-with-trace type of an embedded client function. -/
abbrev M (α : Type) := Except String α × List CallEvent

/-- Sequencing: run x, then f on its value, accumulating traces. -/
def mbind {α β : Type} (x : M α) (f : α → M β) : M β :=
  match x.1 with
  | Except.error e => (Except.error e, x.2)
  | Except.ok a => ((f a).1, x.2 ++ (f a).2)

/-- Record one remote call. -/
def emit (ev : CallEvent) : M Unit := (Except.ok (), [ev])

/-- Pure success, no remote call. -/
def pureM {α : Type} (a : α) : M α := (Except.ok a, [])

/-- Failure, no remote call. -/
def failM {α : Type} (e : String) : M α := (Except.error e, [])

/-- Turn an optional error (Go pattern: err != nil) into a step, with the
error-wrapping prefix used by the source. -/
def errOpt (o : Option String) (pre : String) : M Unit :=
  ((match o with
    | some e => Except.error (pre ++ e)
    | none => Except.ok ()), [])

/-- Turn an Except-valued call outcome into a step, wrapping errors. -/
def wrapErr {α : Type} (x : Except String α) (pre : String) : M α :=
  ((match x with
    | Except.error e => Except.error (pre ++ e)
    | Except.ok a => Except.ok a), [])

/-- URL computed by the SDK blob client for an identity. -/
def blobURL (account container blob : String) : String :=
  "https://" ++ account ++ ".blob.core.windows.net/" ++ container ++ "/" ++ blob

/-- Default from the source: LeaseDuration zero means infinite. -/
def effDur (d : Int) : Int := if d = 0 then -1 else d

/-- Container-create step of CreateBlobWithLease: an error is tolerated
iff its message mentions ContainerAlreadyExists. -/
def containerStep (env : ClientEnv) (config : BlobLeaseConfig) : M Unit :=
  ((match env.createContainer with
    | none => Except.ok ()
    | some e =>
      if strContains e "ContainerAlreadyExists" then Except.ok ()
      else Except.error ("failed to create container " ++ config.containerName ++ ": " ++ e)), [])

/-- GetProperties step with the wrapping used by RenewBlobLease and
GetBlobLeaseState. -/
def propsStep (env : ClientEnv) : M BlobProps :=
  wrapErr env.getProps "failed to get blob properties: "

/-- CreateBlobWithLease from the Go client: create container (tolerating
already-exists), upload the payload, then acquire a lease under
config.leaseID; on success the result hard-codes lease state leased. -/
def CreateBlobWithLease (env : ClientEnv) (config : BlobLeaseConfig) : M BlobLeaseResult :=
  mbind (errOpt env.newClient "failed to create blob client: ") fun _ =>
  mbind (emit (CallEvent.createContainer config.storageAccount config.containerName)) fun _ =>
  mbind (containerStep env config) fun _ =>
  mbind (emit (CallEvent.upload config.storageAccount config.containerName config.blobName config.content)) fun _ =>
  mbind (wrapErr env.upload ("failed to upload blob " ++ config.blobName ++ ": ")) fun etag =>
  mbind (errOpt env.newLeaseClient "failed to create lease client: ") fun _ =>
  mbind (emit (CallEvent.acquireLease config.storageAccount config.containerName config.blobName
      config.leaseID (effDur config.leaseDuration))) fun _ =>
  mbind (wrapErr (env.acquire config.leaseID (effDur config.leaseDuration))
      ("failed to acquire lease on blob " ++ config.blobName ++ ": ")) fun lid =>
  pureM { leaseID := lid,
          blobURL := blobURL config.storageAccount config.containerName config.blobName,
          etag := etag, leaseState := "leased" }

/-- RenewBlobLease from the Go client: reads the blob properties first; if
the reported lease state is not leased it re-acquires a lease using
config.leaseID (the caller-supplied, i.e. stored, token), otherwise it
renews the lease under config.leaseID.  All success paths hard-code lease
state leased and reuse the etag read from the properties. -/
def RenewBlobLease (env : ClientEnv) (config : BlobLeaseConfig) : M BlobLeaseResult :=
  mbind (errOpt env.newClient "failed to create blob client: ") fun _ =>
  mbind (emit (CallEvent.getProperties config.storageAccount config.containerName config.blobName)) fun _ =>
  mbind (propsStep env) fun props =>
  if props.leaseState ≠ some "leased" then
    mbind (errOpt env.newLeaseClient "failed to create lease client: ") fun _ =>
    mbind (emit (CallEvent.acquireLease config.storageAccount config.containerName config.blobName
        config.leaseID (effDur config.leaseDuration))) fun _ =>
    mbind (wrapErr (env.acquire config.leaseID (effDur config.leaseDuration))
        ("failed to re-acquire lease on blob " ++ config.blobName ++ ": ")) fun lid =>
    pureM { leaseID := lid,
            blobURL := blobURL config.storageAccount config.containerName config.blobName,
            etag := props.etag, leaseState := "leased" }
  else
    mbind (errOpt env.newLeaseClient "failed to create lease client: ") fun _ =>
    mbind (emit (CallEvent.renewLease config.storageAccount config.containerName config.blobName
        config.leaseID)) fun _ =>
    mbind (wrapErr env.renew ("failed to renew lease on blob " ++ config.blobName ++ ": ")) fun lid =>
    pureM { leaseID := lid,
            blobURL := blobURL config.storageAccount config.containerName config.blobName,
            etag := props.etag, leaseState := "leased" }

/-- Release step of ReleaseBlobLease: a release error is tolerated iff its
message mentions LeaseNotPresentWithBlobOperation or
LeaseIdMismatchWithBlobOperation. -/
def releaseStep (env : ClientEnv) (config : BlobLeaseConfig) : M Unit :=
  ((match env.release with
    | none => Except.ok ()
    | some e =>
      if !(strContains e "LeaseNotPresentWithBlobOperation") &&
         !(strContains e "LeaseIdMismatchWithBlobOperation") then
        Except.error ("failed to release lease on blob " ++ config.blobName ++ ": " ++ e)
      else Except.ok ()), [])

/-- ReleaseBlobLease from the Go client: release the lease (tolerating the
two already-released error classes), then, when del is set, delete the
blob, surfacing any deletion failure. -/
def ReleaseBlobLease (env : ClientEnv) (config : BlobLeaseConfig) (del : Bool) : M Unit :=
  mbind (errOpt env.newClient "failed to create blob client: ") fun _ =>
  mbind (errOpt env.newLeaseClient "failed to create lease client: ") fun _ =>
  mbind (emit (CallEvent.releaseLease config.storageAccount config.containerName config.blobName
      config.leaseID)) fun _ =>
  mbind (releaseStep env config) fun _ =>
  if del then
    mbind (emit (CallEvent.deleteBlob config.storageAccount config.containerName config.blobName)) fun _ =>
    errOpt env.deleteCall ("failed to delete blob " ++ config.blobName ++ ": ")
  else pureM ()

/-- Existence classification step of BlobExists: a 404 or BlobNotFound
failure of GetProperties means the blob does not exist; any other failure
is surfaced. -/
def existsStep (env : ClientEnv) : M Bool :=
  ((match env.getProps with
    | Except.error e =>
      if strContains e "404" || strContains e "BlobNotFound" then Except.ok false
      else Except.error ("failed to check blob existence: " ++ e)
    | Except.ok _ => Except.ok true), [])

/-- BlobExists from the Go client: GetProperties, mapping a 404 or
BlobNotFound failure to false and any other failure to an error. -/
def BlobExists (env : ClientEnv) (sa cn bn : String) : M Bool :=
  mbind (errOpt env.newClient "failed to create blob client: ") fun _ =>
  mbind (emit (CallEvent.getProperties sa cn bn)) fun _ =>
  existsStep env

/-- Lease state reported by GetBlobLeaseState: available when the pointer
is nil, otherwise the stored string. -/
def observedLeaseState (props : BlobProps) : String :=
  match props.leaseState with
  | none => "available"
  | some s => s

/-- GetBlobLeaseState from the Go client: GetProperties, then report URL,
etag and the observed lease state; the leaseID field is left empty. -/
def GetBlobLeaseState (env : ClientEnv) (sa cn bn : String) : M BlobLeaseResult :=
  mbind (errOpt env.newClient "failed to create blob client: ") fun _ =>
  mbind (emit (CallEvent.getProperties sa cn bn)) fun _ =>
  mbind (propsStep env) fun props =>
  pureM { leaseID := "", blobURL := blobURL sa cn bn,
          etag := props.etag, leaseState := observedLeaseState props }

/-- terraform-plugin-framework string attribute value: null, unknown, or a
known string. -/
inductive TFString where
  | null
  | unknown
  | value (s : String)
deriving DecidableEq

/-- Go types.String IsNull. -/
def TFString.isNull : TFString → Bool
  | TFString.null => true
  | _ => false

/-- Go types.String IsUnknown. -/
def TFString.isUnknown : TFString → Bool
  | TFString.unknown => true
  | _ => false

/-- Go types.String ValueString: the value, or empty for null and unknown. -/
def TFString.valueString : TFString → String
  | TFString.value s => s
  | _ => ""

/-- BlobLeaseResourceModel from the Go resource. -/
structure BlobLeaseResourceModel where
  id : TFString
  storageAccount : TFString
  containerName : TFString
  blobName : TFString
  content : TFString
  leaseID : TFString
  blobURL : TFString
  etag : TFString
  leaseState : TFString
deriving DecidableEq

/-- Default payload written by the provider. -/
def defaultContent : String := "managed by terraform-provider-blobleas"

/-- Content resolution shared by Create and the Update fallback: the
configured content when it is a known value, the default otherwise. -/
def resolveContent (content : TFString) : String :=
  if !content.isNull && !content.isUnknown then content.valueString else defaultContent

/-- Wrap a client call outcome with the diagnostic detail text the
resource layer reports (AddError). -/
def mapFailure {α : Type} (x : M α) (pre : String) : M α :=
  ((match x.1 with
    | Except.error e => Except.error (pre ++ e)
    | Except.ok a => Except.ok a), x.2)

/-- Config built by BlobLeaseResource.Create from the plan and the freshly
generated UUID lease ID. -/
def createConfig (plan : BlobLeaseResourceModel) (newLeaseID : String) : BlobLeaseConfig :=
  { storageAccount := plan.storageAccount.valueString,
    containerName := plan.containerName.valueString,
    blobName := plan.blobName.valueString,
    content := resolveContent plan.content,
    leaseID := newLeaseID,
    leaseDuration := 0 }

/-- BlobLeaseResource.Create: resolve the content, generate a lease ID
(passed here as newLeaseID), call CreateBlobWithLease, and on success
record every computed attribute; any failure is surfaced and nothing is
recorded. -/
def resourceCreate (env : ClientEnv) (plan : BlobLeaseResourceModel) (newLeaseID : String) :
    M BlobLeaseResourceModel :=
  mbind (mapFailure (CreateBlobWithLease env (createConfig plan newLeaseID))
      "Unable to create blob with lease, got error: ") fun result =>
  pureM { plan with
    id := TFString.value (plan.storageAccount.valueString ++ "/" ++
      plan.containerName.valueString ++ "/" ++ plan.blobName.valueString),
    leaseID := TFString.value result.leaseID,
    blobURL := TFString.value result.blobURL,
    etag := TFString.value result.etag,
    leaseState := TFString.value result.leaseState,
    content := if plan.content.isNull || plan.content.isUnknown
      then TFString.value (resolveContent plan.content) else plan.content }

/-- Outcome of BlobLeaseResource.Read: the resource was removed from
state, or the state was updated. -/
inductive ReadResult where
  | removed
  | updated (data : BlobLeaseResourceModel)
deriving DecidableEq

/-- BlobLeaseResource.Read: check existence (removing the resource when
the blob is gone), then read the lease state and record etag and lease
state in local data; no repair is attempted. -/
def resourceRead (envExists envGet : ClientEnv) (state : BlobLeaseResourceModel) : M ReadResult :=
  mbind (mapFailure (BlobExists envExists state.storageAccount.valueString
      state.containerName.valueString state.blobName.valueString)
      "Unable to check blob existence, got error: ") fun ex =>
  if ex = false then pureM ReadResult.removed
  else
    mbind (mapFailure (GetBlobLeaseState envGet state.storageAccount.valueString
        state.containerName.valueString state.blobName.valueString)
        "Unable to read blob lease state, got error: ") fun leaseResult =>
    pureM (ReadResult.updated { state with
      etag := TFString.value leaseResult.etag,
      leaseState := TFString.value leaseResult.leaseState })

/-- Config built by BlobLeaseResource.Update for the renewal attempt: the
identity from the plan and the stored lease ID from prior state. -/
def updateRenewConfig (plan state : BlobLeaseResourceModel) : BlobLeaseConfig :=
  { storageAccount := plan.storageAccount.valueString,
    containerName := plan.containerName.valueString,
    blobName := plan.blobName.valueString,
    content := "",
    leaseID := state.leaseID.valueString,
    leaseDuration := 0 }

/-- Config used by the Update fallback: the freshly generated lease ID and
the rewritten default-or-configured content. -/
def updateFallbackConfig (plan state : BlobLeaseResourceModel) (newLeaseID : String) :
    BlobLeaseConfig :=
  { updateRenewConfig plan state with
    leaseID := newLeaseID,
    content := resolveContent plan.content }

/-- Repair path of BlobLeaseResource.Update: try RenewBlobLease on the
stored lease ID; if it fails, fall back to CreateBlobWithLease with a
freshly generated lease ID and rewritten content. -/
def updateRepair (envRenew envCreate : ClientEnv) (plan state : BlobLeaseResourceModel)
    (newLeaseID : String) : M BlobLeaseResult :=
  match (RenewBlobLease envRenew (updateRenewConfig plan state)).1 with
  | Except.ok result => (Except.ok result, (RenewBlobLease envRenew (updateRenewConfig plan state)).2)
  | Except.error _ =>
    ((match (CreateBlobWithLease envCreate (updateFallbackConfig plan state newLeaseID)).1 with
      | Except.error e => Except.error ("Unable to renew or acquire blob lease, got error: " ++ e)
      | Except.ok result => Except.ok result),
     (RenewBlobLease envRenew (updateRenewConfig plan state)).2 ++
       (CreateBlobWithLease envCreate (updateFallbackConfig plan state newLeaseID)).2)

/-- BlobLeaseResource.Update: read the current lease state; when it is not
leased, repair (renew, falling back to re-acquire) and record the repaired
attributes; when it is leased, refresh metadata only and keep the stored
lease ID unchanged. -/
def resourceUpdate (envGet envRenew envCreate : ClientEnv)
    (plan state : BlobLeaseResourceModel) (newLeaseID : String) : M BlobLeaseResourceModel :=
  mbind (mapFailure (GetBlobLeaseState envGet plan.storageAccount.valueString
      plan.containerName.valueString plan.blobName.valueString)
      "Unable to read blob lease state, got error: ") fun leaseResult =>
  if leaseResult.leaseState ≠ "leased" then
    mbind (updateRepair envRenew envCreate plan state newLeaseID) fun result =>
    pureM { plan with
      leaseID := TFString.value result.leaseID,
      etag := TFString.value result.etag,
      leaseState := TFString.value result.leaseState,
      blobURL := TFString.value result.blobURL }
  else
    pureM { plan with
      etag := TFString.value leaseResult.etag,
      leaseState := TFString.value leaseResult.leaseState,
      blobURL := TFString.value leaseResult.blobURL,
      leaseID := state.leaseID }

/-- Config built by BlobLeaseResource.Delete from prior state. -/
def deleteConfig (state : BlobLeaseResourceModel) : BlobLeaseConfig :=
  { storageAccount := state.storageAccount.valueString,
    containerName := state.containerName.valueString,
    blobName := state.blobName.valueString,
    content := "",
    leaseID := state.leaseID.valueString,
    leaseDuration := 0 }

/-- BlobLeaseResource.Delete: release the lease and delete the blob via
ReleaseBlobLease with deletion requested. -/
def resourceDelete (env : ClientEnv) (state : BlobLeaseResourceModel) : M Unit :=
  mapFailure (ReleaseBlobLease env (deleteConfig state) true)
    "Unable to release lease and delete blob, got error: "

/-- Import identifier split from BlobLeaseResource.ImportState: the Go
loop appends a segment at each slash only when it is non-empty (start
less than i), and the trailing segment only when non-empty. -/
def importPartsAux : List Char → List Char → List (List Char)
  | [], cur => if cur.isEmpty then [] else [cur.reverse]
  | c :: rest, cur =>
    if c = '/' then
      if cur.isEmpty then importPartsAux rest []
      else cur.reverse :: importPartsAux rest []
    else importPartsAux rest (c :: cur)

/-- Segments produced by the ImportState splitter for an identifier. -/
def importParts (id : String) : List String :=
  (importPartsAux id.data []).map (fun cs => String.mk cs)

/-- Identifier acceptance in ImportState: exactly three produced segments
yield the (account, container, name) triple, anything else is a format
error. -/
def importStateParse (id : String) : Option (String × String × String) :=
  match importParts id with
  | [a, b, c] => some (a, b, c)
  | _ => none

/-- Standard slash split, keeping empty segments.  This follows the words
of the specification (split on slash, require three non-empty segments)
and is compared against the splitter embedded from the source. -/
def splitSlashAux : List Char → List Char → List (List Char)
  | [], cur => [cur.reverse]
  | c :: rest, cur =>
    if c = '/' then cur.reverse :: splitSlashAux rest []
    else splitSlashAux rest (c :: cur)

/-- Standard slash split of a string, keeping empty segments. -/
def splitSlash (s : String) : List String :=
  (splitSlashAux s.data []).map (fun cs => String.mk cs)

/-- One iteration of the background renewal loop select: either the
context was cancelled (carrying the non-nil ctx.Err() message), or the
ticker fired with the given remote-call outcomes. -/
inductive LoopEvent where
  | cancel (ctxErr : String)
  | tick (env : ClientEnv)

/-- Observable outcome of running the background renewal loop against a
finite prefix of select events. -/
inductive LoopOutcome where
  | running
  | terminated (err : Option String)
deriving DecidableEq

/-- StartLeaseRenewal from the Go client: loop forever; on cancellation
return ctx.Err(); on a tick, renew, and terminate with a wrapped error as
soon as a renewal fails. -/
def StartLeaseRenewal (config : BlobLeaseConfig) : List LoopEvent → LoopOutcome
  | [] => LoopOutcome.running
  | LoopEvent.cancel e :: _ => LoopOutcome.terminated (some e)
  | LoopEvent.tick env :: rest =>
    match (RenewBlobLease env config).1 with
    | Except.error e =>
      LoopOutcome.terminated (some ("failed to renew lease during background renewal: " ++ e))
    | Except.ok _ => StartLeaseRenewal config rest

/-! Infrastructure lemmas about the sequencing combinator and the steps. -/

theorem mbind_fst_ok {α β : Type} {x : M α} {a : α} (f : α → M β) (h : x.1 = Except.ok a) :
    (mbind x f).1 = (f a).1 := by
  simp [mbind, h]

theorem mbind_fst_err {α β : Type} {x : M α} {e : String} (f : α → M β)
    (h : x.1 = Except.error e) : (mbind x f).1 = Except.error e := by
  simp [mbind, h]

theorem mbind_snd_ok {α β : Type} {x : M α} {a : α} (f : α → M β) (h : x.1 = Except.ok a) :
    (mbind x f).2 = x.2 ++ (f a).2 := by
  simp [mbind, h]

theorem mbind_snd_err {α β : Type} {x : M α} {e : String} (f : α → M β)
    (h : x.1 = Except.error e) : (mbind x f).2 = x.2 := by
  simp [mbind, h]

theorem mem_mbind {α β : Type} {ev : CallEvent} {x : M α} {f : α → M β} :
    ev ∈ (mbind x f).2 ↔ ev ∈ x.2 ∨ ∃ a, x.1 = Except.ok a ∧ ev ∈ (f a).2 := by
  cases h : x.1 with
  | error e => simp [mbind, h]
  | ok a => simp [mbind, h]

theorem errOpt_snd (o : Option String) (pre : String) : (errOpt o pre).2 = [] := rfl

theorem wrapErr_snd {α : Type} (x : Except String α) (pre : String) : (wrapErr x pre).2 = [] := rfl

theorem containerStep_snd (env : ClientEnv) (config : BlobLeaseConfig) :
    (containerStep env config).2 = [] := rfl

theorem releaseStep_snd (env : ClientEnv) (config : BlobLeaseConfig) :
    (releaseStep env config).2 = [] := rfl

theorem propsStep_snd (env : ClientEnv) : (propsStep env).2 = [] := rfl

theorem pureM_snd {α : Type} (a : α) : (pureM a).2 = [] := rfl

theorem emit_snd (ev : CallEvent) : (emit ev).2 = [ev] := rfl

theorem mapFailure_snd {α : Type} (x : M α) (pre : String) : (mapFailure x pre).2 = x.2 := rfl

theorem mapFailure_fst_ok {α : Type} {x : M α} {a : α} (pre : String) (h : x.1 = Except.ok a) :
    (mapFailure x pre).1 = Except.ok a := by
  simp [mapFailure, h]

theorem mapFailure_fst_err {α : Type} {x : M α} {e : String} (pre : String)
    (h : x.1 = Except.error e) : (mapFailure x pre).1 = Except.error (pre ++ e) := by
  simp [mapFailure, h]

/-- GetBlobLeaseState fully evaluated when the client is constructed and
the properties call succeeds. -/
theorem getState_ok {env : ClientEnv} {props : BlobProps} (sa cn bn : String)
    (h1 : env.newClient = none) (h2 : env.getProps = Except.ok props) :
    GetBlobLeaseState env sa cn bn =
      (Except.ok { leaseID := "", blobURL := blobURL sa cn bn, etag := props.etag,
                   leaseState := observedLeaseState props },
       [CallEvent.getProperties sa cn bn]) := by
  simp [GetBlobLeaseState, mbind, errOpt, emit, propsStep, wrapErr, pureM, h1, h2]

theorem emit_fst (ev : CallEvent) : (emit ev).1 = Except.ok () := rfl

theorem existsStep_snd (env : ClientEnv) : (existsStep env).2 = [] := rfl

theorem wrapErr_fst_ok {α : Type} {x : Except String α} {a : α} {pre : String}
    (h : (wrapErr x pre).1 = Except.ok a) : x = Except.ok a := by
  cases x <;> simp [wrapErr] at h; simp [h]

/-- Every remote call CreateBlobWithLease can make is the container
create, the payload upload, or the lease acquire under config.leaseID. -/
theorem mem_create_trace {env : ClientEnv} {config : BlobLeaseConfig} {ev : CallEvent}
    (h : ev ∈ (CreateBlobWithLease env config).2) :
    ev = CallEvent.createContainer config.storageAccount config.containerName ∨
    ev = CallEvent.upload config.storageAccount config.containerName config.blobName config.content ∨
    ev = CallEvent.acquireLease config.storageAccount config.containerName config.blobName
      config.leaseID (effDur config.leaseDuration) := by
  simp only [CreateBlobWithLease, mem_mbind, errOpt_snd, emit_snd, containerStep_snd,
    wrapErr_snd, pureM_snd, List.mem_singleton, List.not_mem_nil, false_or, or_false] at h
  tauto

/-- Success inversion for CreateBlobWithLease: the upload and the acquire
under config.leaseID succeeded, the lease state is hard-coded leased, and
the trace is exactly container create, upload, acquire. -/
theorem create_ok_inv {env : ClientEnv} {config : BlobLeaseConfig} {r : BlobLeaseResult}
    (h : (CreateBlobWithLease env config).1 = Except.ok r) :
    env.upload = Except.ok r.etag ∧
    env.acquire config.leaseID (effDur config.leaseDuration) = Except.ok r.leaseID ∧
    r.blobURL = blobURL config.storageAccount config.containerName config.blobName ∧
    r.leaseState = "leased" ∧
    (CreateBlobWithLease env config).2 =
      [CallEvent.createContainer config.storageAccount config.containerName,
       CallEvent.upload config.storageAccount config.containerName config.blobName config.content,
       CallEvent.acquireLease config.storageAccount config.containerName config.blobName
         config.leaseID (effDur config.leaseDuration)] := by
  unfold CreateBlobWithLease at h ⊢
  cases h1 : (errOpt env.newClient "failed to create blob client: ").1 with
  | error e => rw [mbind_fst_err _ h1] at h; exact absurd h (by simp)
  | ok u =>
    rw [mbind_fst_ok _ h1] at h
    rw [mbind_fst_ok _ (emit_fst _)] at h
    cases h2 : (containerStep env config).1 with
    | error e => rw [mbind_fst_err _ h2] at h; exact absurd h (by simp)
    | ok u2 =>
      rw [mbind_fst_ok _ h2] at h
      rw [mbind_fst_ok _ (emit_fst _)] at h
      cases h3 : (wrapErr env.upload ("failed to upload blob " ++ config.blobName ++ ": ")).1 with
      | error e => rw [mbind_fst_err _ h3] at h; exact absurd h (by simp)
      | ok etag =>
        rw [mbind_fst_ok _ h3] at h
        cases h4 : (errOpt env.newLeaseClient "failed to create lease client: ").1 with
        | error e => rw [mbind_fst_err _ h4] at h; exact absurd h (by simp)
        | ok u3 =>
          rw [mbind_fst_ok _ h4] at h
          rw [mbind_fst_ok _ (emit_fst _)] at h
          cases h5 : (wrapErr (env.acquire config.leaseID (effDur config.leaseDuration))
              ("failed to acquire lease on blob " ++ config.blobName ++ ": ")).1 with
          | error e => rw [mbind_fst_err _ h5] at h; exact absurd h (by simp)
          | ok lid =>
            rw [mbind_fst_ok _ h5] at h
            simp only [pureM] at h
            injection h with h
            subst h
            refine ⟨wrapErr_fst_ok h3, wrapErr_fst_ok h5, rfl, rfl, ?_⟩
            rw [mbind_snd_ok _ h1, mbind_snd_ok _ (emit_fst _), mbind_snd_ok _ h2,
              mbind_snd_ok _ (emit_fst _), mbind_snd_ok _ h3, mbind_snd_ok _ h4,
              mbind_snd_ok _ (emit_fst _), mbind_snd_ok _ h5]
            simp [errOpt_snd, emit_snd, containerStep_snd, wrapErr_snd, pureM_snd]

/-- Every remote call RenewBlobLease can make is the properties read, the
re-acquire under config.leaseID, or the renew under config.leaseID. -/
theorem mem_renew_trace {env : ClientEnv} {config : BlobLeaseConfig} {ev : CallEvent}
    (h : ev ∈ (RenewBlobLease env config).2) :
    ev = CallEvent.getProperties config.storageAccount config.containerName config.blobName ∨
    ev = CallEvent.acquireLease config.storageAccount config.containerName config.blobName
      config.leaseID (effDur config.leaseDuration) ∨
    ev = CallEvent.renewLease config.storageAccount config.containerName config.blobName
      config.leaseID := by
  simp only [RenewBlobLease, mem_mbind, errOpt_snd, emit_snd, propsStep_snd, wrapErr_snd,
    pureM_snd, List.mem_singleton, List.not_mem_nil, false_or, or_false] at h
  obtain ⟨u, hu, h⟩ := h
  rcases h with h | ⟨u2, hu2, props, hp, h⟩
  · exact Or.inl h
  · split at h <;>
      simp only [mem_mbind, errOpt_snd, emit_snd, wrapErr_snd, pureM_snd, List.mem_singleton,
        List.not_mem_nil, false_or, or_false] at h <;> tauto

/-- GetBlobLeaseState only ever reads blob properties. -/
theorem mem_getState_trace {env : ClientEnv} {sa cn bn : String} {ev : CallEvent}
    (h : ev ∈ (GetBlobLeaseState env sa cn bn).2) : ev = CallEvent.getProperties sa cn bn := by
  simp only [GetBlobLeaseState, mem_mbind, errOpt_snd, emit_snd, propsStep_snd, pureM_snd,
    List.mem_singleton, List.not_mem_nil, false_or, or_false] at h
  tauto

/-- BlobExists only ever reads blob properties. -/
theorem mem_exists_trace {env : ClientEnv} {sa cn bn : String} {ev : CallEvent}
    (h : ev ∈ (BlobExists env sa cn bn).2) : ev = CallEvent.getProperties sa cn bn := by
  simp only [BlobExists, mem_mbind, errOpt_snd, emit_snd, existsStep_snd,
    List.mem_singleton, List.not_mem_nil, false_or, or_false] at h
  tauto

/-- Every remote call ReleaseBlobLease can make is the lease release or
the blob deletion. -/
theorem mem_release_trace {env : ClientEnv} {config : BlobLeaseConfig} {del : Bool} {ev : CallEvent}
    (h : ev ∈ (ReleaseBlobLease env config del).2) :
    ev = CallEvent.releaseLease config.storageAccount config.containerName config.blobName
      config.leaseID ∨
    ev = CallEvent.deleteBlob config.storageAccount config.containerName config.blobName := by
  simp only [ReleaseBlobLease, mem_mbind, errOpt_snd, emit_snd, releaseStep_snd, pureM_snd,
    List.mem_singleton, List.not_mem_nil, false_or, or_false] at h
  obtain ⟨u, hu, u2, hu2, h⟩ := h
  rcases h with h | ⟨u3, hu3, h⟩
  · exact Or.inl h
  · split at h <;>
      simp only [mem_mbind, errOpt_snd, emit_snd, pureM_snd, List.mem_singleton,
        List.not_mem_nil, false_or, or_false] at h <;> tauto

/-- A release failure of any class other than the two tolerated ones
aborts ReleaseBlobLease before the deletion is attempted. -/
theorem release_fatal {env : ClientEnv} (config : BlobLeaseConfig) {e : String}
    (h1 : env.newClient = none) (h2 : env.newLeaseClient = none)
    (h3 : env.release = some e)
    (h4 : strContains e "LeaseNotPresentWithBlobOperation" = false)
    (h5 : strContains e "LeaseIdMismatchWithBlobOperation" = false) :
    ReleaseBlobLease env config true =
      (Except.error ("failed to release lease on blob " ++ config.blobName ++ ": " ++ e),
       [CallEvent.releaseLease config.storageAccount config.containerName config.blobName
         config.leaseID]) := by
  simp [ReleaseBlobLease, mbind, errOpt, emit, releaseStep, pureM, h1, h2, h3, h4, h5]

/-- A release failure of one of the two tolerated classes is treated as
success: deletion proceeds and decides the overall outcome. -/
theorem release_tolerated {env : ClientEnv} (config : BlobLeaseConfig) {e : String}
    (h1 : env.newClient = none) (h2 : env.newLeaseClient = none)
    (h3 : env.release = some e)
    (h4 : (strContains e "LeaseNotPresentWithBlobOperation" ||
           strContains e "LeaseIdMismatchWithBlobOperation") = true) :
    ReleaseBlobLease env config true =
      ((errOpt env.deleteCall ("failed to delete blob " ++ config.blobName ++ ": ")).1,
       [CallEvent.releaseLease config.storageAccount config.containerName config.blobName
          config.leaseID,
        CallEvent.deleteBlob config.storageAccount config.containerName config.blobName]) := by
  cases ha : strContains e "LeaseNotPresentWithBlobOperation" <;>
    cases hb : strContains e "LeaseIdMismatchWithBlobOperation" <;>
    simp_all [ReleaseBlobLease, mbind, errOpt, emit, releaseStep, pureM]

theorem chain3_ok_inv {o : Option String} {pre1 : String} {ev : CallEvent} {α : Type}
    {x : Except String α} {pre2 : String} {g : α → BlobLeaseResult} {r : BlobLeaseResult}
    (h : (mbind (errOpt o pre1) fun _ =>
          mbind (emit ev) fun _ =>
          mbind (wrapErr x pre2) fun a => pureM (g a)).1 = Except.ok r) :
    ∃ a, x = Except.ok a ∧ r = g a := by
  cases h1 : (errOpt o pre1).1 with
  | error e => rw [mbind_fst_err _ h1] at h; exact absurd h (by simp)
  | ok u =>
    rw [mbind_fst_ok _ h1, mbind_fst_ok _ (emit_fst _)] at h
    cases h2 : (wrapErr x pre2).1 with
    | error e => rw [mbind_fst_err _ h2] at h; exact absurd h (by simp)
    | ok a =>
      rw [mbind_fst_ok _ h2] at h
      simp only [pureM] at h
      injection h with h
      exact ⟨a, wrapErr_fst_ok h2, h.symm⟩

theorem renew_ok_leaseState {env : ClientEnv} {config : BlobLeaseConfig} {r : BlobLeaseResult}
    (h : (RenewBlobLease env config).1 = Except.ok r) : r.leaseState = "leased" := by
  unfold RenewBlobLease at h
  cases h1 : (errOpt env.newClient "failed to create blob client: ").1 with
  | error e => rw [mbind_fst_err _ h1] at h; exact absurd h (by simp)
  | ok u =>
    rw [mbind_fst_ok _ h1, mbind_fst_ok _ (emit_fst _)] at h
    cases h2 : (propsStep env).1 with
    | error e => rw [mbind_fst_err _ h2] at h; exact absurd h (by simp)
    | ok props =>
      rw [mbind_fst_ok _ h2] at h
      split at h <;> { obtain ⟨a, hx, hr⟩ := chain3_ok_inv h; rw [hr] }

theorem resourceCreate_err {env : ClientEnv} {plan : BlobLeaseResourceModel}
    {newLeaseID e : String}
    (h : (CreateBlobWithLease env (createConfig plan newLeaseID)).1 = Except.error e) :
    (resourceCreate env plan newLeaseID).1 =
      Except.error ("Unable to create blob with lease, got error: " ++ e) := by
  unfold resourceCreate
  rw [mbind_fst_err _ (mapFailure_fst_err _ h)]

theorem resourceCreate_snd (env : ClientEnv) (plan : BlobLeaseResourceModel)
    (newLeaseID : String) :
    (resourceCreate env plan newLeaseID).2 =
      (CreateBlobWithLease env (createConfig plan newLeaseID)).2 := by
  unfold resourceCreate
  cases h : (CreateBlobWithLease env (createConfig plan newLeaseID)).1 with
  | error e => rw [mbind_snd_err _ (mapFailure_fst_err _ h), mapFailure_snd]
  | ok r => rw [mbind_snd_ok _ (mapFailure_fst_ok _ h), mapFailure_snd, pureM_snd,
      List.append_nil]

theorem resourceCreate_ok_inv {env : ClientEnv} {plan : BlobLeaseResourceModel}
    {newLeaseID : String} {m : BlobLeaseResourceModel}
    (h : (resourceCreate env plan newLeaseID).1 = Except.ok m) :
    ∃ r, (CreateBlobWithLease env (createConfig plan newLeaseID)).1 = Except.ok r ∧
      m.leaseID = TFString.value r.leaseID ∧ m.leaseState = TFString.value r.leaseState := by
  unfold resourceCreate at h
  cases hc : (CreateBlobWithLease env (createConfig plan newLeaseID)).1 with
  | error e => rw [mbind_fst_err _ (mapFailure_fst_err _ hc)] at h; exact absurd h (by simp)
  | ok r =>
    rw [mbind_fst_ok _ (mapFailure_fst_ok _ hc)] at h
    simp only [pureM] at h
    injection h with h
    exact ⟨r, rfl, by rw [← h], by rw [← h]⟩

theorem updateRepair_fallback {envRenew envCreate : ClientEnv}
    {plan state : BlobLeaseResourceModel} {newLeaseID e : String} {r : BlobLeaseResult}
    (hRenew : (RenewBlobLease envRenew (updateRenewConfig plan state)).1 = Except.error e)
    (hCreate : (CreateBlobWithLease envCreate
        (updateFallbackConfig plan state newLeaseID)).1 = Except.ok r) :
    updateRepair envRenew envCreate plan state newLeaseID =
      (Except.ok r,
       (RenewBlobLease envRenew (updateRenewConfig plan state)).2 ++
         (CreateBlobWithLease envCreate (updateFallbackConfig plan state newLeaseID)).2) := by
  simp [updateRepair, hRenew, hCreate]

theorem updateRepair_renewed {envRenew envCreate : ClientEnv}
    {plan state : BlobLeaseResourceModel} {newLeaseID : String} {r : BlobLeaseResult}
    (hRenew : (RenewBlobLease envRenew (updateRenewConfig plan state)).1 = Except.ok r) :
    updateRepair envRenew envCreate plan state newLeaseID =
      (Except.ok r, (RenewBlobLease envRenew (updateRenewConfig plan state)).2) := by
  simp [updateRepair, hRenew]

theorem blobExists_ok {env : ClientEnv} {pe : BlobProps} (sa cn bn : String)
    (h1 : env.newClient = none) (h2 : env.getProps = Except.ok pe) :
    BlobExists env sa cn bn = (Except.ok true, [CallEvent.getProperties sa cn bn]) := by
  simp [BlobExists, mbind, errOpt, emit, existsStep, h1, h2]

theorem resourceUpdate_leased (envGet envRenew envCreate : ClientEnv)
    (plan state : BlobLeaseResourceModel) (newLeaseID : String) {props : BlobProps}
    (h1 : envGet.newClient = none) (h2 : envGet.getProps = Except.ok props)
    (h3 : observedLeaseState props = "leased") :
    resourceUpdate envGet envRenew envCreate plan state newLeaseID =
      (Except.ok { plan with
        etag := TFString.value props.etag,
        leaseState := TFString.value "leased",
        blobURL := TFString.value (blobURL plan.storageAccount.valueString
          plan.containerName.valueString plan.blobName.valueString),
        leaseID := state.leaseID },
       [CallEvent.getProperties plan.storageAccount.valueString plan.containerName.valueString
          plan.blobName.valueString]) := by
  have hg := getState_ok plan.storageAccount.valueString
    plan.containerName.valueString plan.blobName.valueString h1 h2
  unfold resourceUpdate
  rw [hg]
  simp [mapFailure, mbind, pureM, h3]

theorem resourceUpdate_drift (envGet envRenew envCreate : ClientEnv)
    (plan state : BlobLeaseResourceModel) (newLeaseID : String) {props : BlobProps}
    (h1 : envGet.newClient = none) (h2 : envGet.getProps = Except.ok props)
    (h3 : observedLeaseState props ≠ "leased") :
    resourceUpdate envGet envRenew envCreate plan state newLeaseID =
      ((mbind (updateRepair envRenew envCreate plan state newLeaseID) fun result =>
          pureM { plan with
            leaseID := TFString.value result.leaseID,
            etag := TFString.value result.etag,
            leaseState := TFString.value result.leaseState,
            blobURL := TFString.value result.blobURL }).1,
       CallEvent.getProperties plan.storageAccount.valueString plan.containerName.valueString
           plan.blobName.valueString ::
         (mbind (updateRepair envRenew envCreate plan state newLeaseID) fun result =>
          pureM { plan with
            leaseID := TFString.value result.leaseID,
            etag := TFString.value result.etag,
            leaseState := TFString.value result.leaseState,
            blobURL := TFString.value result.blobURL }).2) := by
  have hg := getState_ok plan.storageAccount.valueString
    plan.containerName.valueString plan.blobName.valueString h1 h2
  unfold resourceUpdate
  rw [hg]
  simp [mapFailure, mbind, pureM, h3]

theorem resourceRead_ok {envExists envGet : ClientEnv} {state : BlobLeaseResourceModel}
    {pe props : BlobProps}
    (e1 : envExists.newClient = none) (e2 : envExists.getProps = Except.ok pe)
    (g1 : envGet.newClient = none) (g2 : envGet.getProps = Except.ok props) :
    resourceRead envExists envGet state =
      (Except.ok (ReadResult.updated { state with
        etag := TFString.value props.etag,
        leaseState := TFString.value (observedLeaseState props) }),
       [CallEvent.getProperties state.storageAccount.valueString
          state.containerName.valueString state.blobName.valueString,
        CallEvent.getProperties state.storageAccount.valueString
          state.containerName.valueString state.blobName.valueString]) := by
  have he := blobExists_ok state.storageAccount.valueString
    state.containerName.valueString state.blobName.valueString e1 e2
  have hg := getState_ok state.storageAccount.valueString
    state.containerName.valueString state.blobName.valueString g1 g2
  unfold resourceRead
  rw [he, hg]
  simp [mapFailure, mbind, pureM]

/-! Import identifier parsing (claim C8). -/

/-- The splitter embedded from ImportState equals the standard slash
split with the empty segments dropped. -/
theorem importPartsAux_eq_filter (l : List Char) : ∀ cur : List Char,
    importPartsAux l cur = (splitSlashAux l cur).filter (fun cs => !cs.isEmpty) := by
  induction l with
  | nil =>
    intro cur
    cases cur <;> simp [importPartsAux, splitSlashAux]
  | cons c rest ih =>
    intro cur
    by_cases hc : c = '/'
    · subst hc
      cases cur <;> simp [importPartsAux, splitSlashAux, ih]
    · simp [importPartsAux, splitSlashAux, hc, ih]

/-- The ImportState identifier check succeeds exactly when the produced
segment list has length three. -/
theorem importStateParse_ne_none_iff (s : String) :
    importStateParse s ≠ none ↔ (importParts s).length = 3 := by
  unfold importStateParse
  rcases importParts s with _ | ⟨a, _ | ⟨b, _ | ⟨c, _ | ⟨d, t⟩⟩⟩⟩ <;> simp


/-- Properties of a blob observed with an expired lease. -/
def propsExpired : BlobProps := { leaseState := some "expired", etag := "etag0" }

/-- Properties of a blob observed as currently leased. -/
def propsLeased : BlobProps := { leaseState := some "leased", etag := "etag0" }

/-- Oracle on which every remote call succeeds, the acquire echoes the
proposed token, and the lease is observed expired. -/
def envExpired : ClientEnv :=
  { newClient := none, createContainer := none, upload := Except.ok "etag1",
    newLeaseClient := none, acquire := fun s _ => Except.ok s,
    getProps := Except.ok propsExpired, renew := Except.ok "t0",
    release := none, deleteCall := none }

/-- Oracle on which every remote call succeeds and the lease is observed
currently leased. -/
def envLeased : ClientEnv := { envExpired with getProps := Except.ok propsLeased }

/-- Oracle whose properties read fails outright, which makes a renewal
attempt fail. -/
def envDown : ClientEnv := { envExpired with getProps := Except.error "boom" }

/-- A plan whose computed attributes are still unknown. -/
def plan0 : BlobLeaseResourceModel :=
  { id := TFString.unknown, storageAccount := TFString.value "a",
    containerName := TFString.value "c", blobName := TFString.value "b",
    content := TFString.null, leaseID := TFString.unknown, blobURL := TFString.unknown,
    etag := TFString.unknown, leaseState := TFString.unknown }

/-- A prior state holding lease ID t0. -/
def state0 : BlobLeaseResourceModel :=
  { plan0 with
    id := TFString.value "a/c/b", leaseID := TFString.value "t0",
    blobURL := TFString.value (blobURL "a" "c" "b"),
    etag := TFString.value "etag0", leaseState := TFString.value "expired" }

/-- C7: when Update observes lease state leased, the stored lease ID is
preserved unchanged in the result, the cached etag is refreshed from the
observation, and the only remote call performed is the lease-state query,
so no acquire, renew, write, release or delete happens. -/
theorem update_leased_preserves_token (envGet envRenew envCreate : ClientEnv)
    (plan state : BlobLeaseResourceModel) (newLeaseID : String) (props : BlobProps)
    (h1 : envGet.newClient = none) (h2 : envGet.getProps = Except.ok props)
    (h3 : observedLeaseState props = "leased") :
    (resourceUpdate envGet envRenew envCreate plan state newLeaseID).1 =
      Except.ok { plan with
        etag := TFString.value props.etag,
        leaseState := TFString.value "leased",
        blobURL := TFString.value (blobURL plan.storageAccount.valueString
          plan.containerName.valueString plan.blobName.valueString),
        leaseID := state.leaseID } ∧
    (resourceUpdate envGet envRenew envCreate plan state newLeaseID).2 =
      [CallEvent.getProperties plan.storageAccount.valueString plan.containerName.valueString
         plan.blobName.valueString] := by
  rw [resourceUpdate_leased envGet envRenew envCreate plan state newLeaseID h1 h2 h3]
  exact ⟨rfl, rfl⟩

/-- C7 witness at a concrete leased observation. -/
theorem update_leased_preserves_token_witness :
    observedLeaseState propsLeased = "leased" ∧
    (resourceUpdate envLeased envLeased envLeased plan0 state0 "t1").1 =
      Except.ok { plan0 with
        etag := TFString.value "etag0",
        leaseState := TFString.value "leased",
        blobURL := TFString.value (blobURL "a" "c" "b"),
        leaseID := TFString.value "t0" } :=
  ⟨rfl, (update_leased_preserves_token envLeased envLeased envLeased plan0 state0 "t1"
      propsLeased rfl rfl rfl).1⟩

/-- C3: Read only observes: every remote call it makes is a blob
properties read against the stored identity (the existence check and the
lease-state query), and when the observed lease state is not leased it
records that state and the current etag in local data without invoking
any acquire, renew, release, write or delete primitive. -/
theorem read_is_observation_only (envExists envGet : ClientEnv)
    (state : BlobLeaseResourceModel) :
    (∀ ev, ev ∈ (resourceRead envExists envGet state).2 →
      ev = CallEvent.getProperties state.storageAccount.valueString
        state.containerName.valueString state.blobName.valueString) ∧
    (∀ pe props, envExists.newClient = none → envExists.getProps = Except.ok pe →
      envGet.newClient = none → envGet.getProps = Except.ok props →
      observedLeaseState props ≠ "leased" →
      (resourceRead envExists envGet state).1 =
        Except.ok (ReadResult.updated { state with
          etag := TFString.value props.etag,
          leaseState := TFString.value (observedLeaseState props) })) := by
  constructor
  · intro ev h
    unfold resourceRead at h
    rw [mem_mbind] at h
    rcases h with h | ⟨ex, hex, h⟩
    · rw [mapFailure_snd] at h
      exact mem_exists_trace h
    · split at h
      · simp [pureM] at h
      · rw [mem_mbind] at h
        rcases h with h | ⟨lr, hlr, h⟩
        · rw [mapFailure_snd] at h
          exact mem_getState_trace h
        · simp [pureM] at h
  · intro pe props e1 e2 g1 g2 hd
    rw [resourceRead_ok e1 e2 g1 g2]

/-- C3 witness at a concrete drifted observation. -/
theorem read_is_observation_only_witness :
    observedLeaseState propsExpired ≠ "leased" ∧
    (resourceRead envExpired envExpired state0).1 =
      Except.ok (ReadResult.updated { state0 with
        etag := TFString.value "etag0",
        leaseState := TFString.value "expired" }) :=
  ⟨by decide, (read_is_observation_only envExpired envExpired state0).2 propsExpired
      propsExpired rfl rfl rfl rfl (by decide)⟩

/-- C8 counterexample: the identifier a//b/c, whose slash split contains
an empty segment (so it does not consist of exactly three non-empty
segments), is nevertheless accepted by the ImportState parser, because
the embedded splitter silently drops empty segments. -/
theorem import_accepts_empty_segment_cex :
    splitSlash "a//b/c" = ["a", "", "b", "c"] ∧
    importStateParse "a//b/c" = some ("a", "b", "c") := ⟨rfl, rfl⟩

/-- C8 amended: the parser accepts exactly the strings whose slash split,
after dropping empty segments, has exactly three segments, and the
segments kept are the non-empty ones in order; inputs such as a//b/c are
therefore accepted rather than rejected. -/
theorem import_parse_amended (s : String) :
    importParts s =
      ((splitSlashAux s.data []).filter (fun cs => !cs.isEmpty)).map (fun cs => String.mk cs) ∧
    (importStateParse s ≠ none ↔
      ((splitSlashAux s.data []).filter (fun cs => !cs.isEmpty)).length = 3) := by
  have h := importPartsAux_eq_filter s.data []
  constructor
  · unfold importParts
    rw [h]
  · rw [importStateParse_ne_none_iff]
    unfold importParts
    rw [h, List.length_map]


theorem mem_updateRepair_trace {envRenew envCreate : ClientEnv}
    {plan state : BlobLeaseResourceModel} {newLeaseID : String} {ev : CallEvent}
    (h : ev ∈ (updateRepair envRenew envCreate plan state newLeaseID).2) :
    ev ∈ (RenewBlobLease envRenew (updateRenewConfig plan state)).2 ∨
    ev ∈ (CreateBlobWithLease envCreate (updateFallbackConfig plan state newLeaseID)).2 := by
  unfold updateRepair at h
  split at h
  · exact Or.inl h
  · simp only [List.mem_append] at h
    exact h

theorem updateRepair_ok_leaseState {envRenew envCreate : ClientEnv}
    {plan state : BlobLeaseResourceModel} {newLeaseID : String} {r : BlobLeaseResult}
    (h : (updateRepair envRenew envCreate plan state newLeaseID).1 = Except.ok r) :
    r.leaseState = "leased" := by
  unfold updateRepair at h
  split at h
  case h_1 result heq =>
    simp only at h
    injection h with h
    subst h
    exact renew_ok_leaseState heq
  case h_2 e heq =>
    simp only at h
    split at h
    · exact absurd h (by simp)
    case h_2 result heq2 =>
      injection h with h
      subst h
      exact (create_ok_inv heq2).2.2.2.1

/-- C1: when Update observes a non-leased state and the renewal attempt
on the stored lease ID fails, it falls back to a full re-acquisition with
the newly generated token and the rewritten default-or-configured
payload, and on success records that new token (distinct from the stored
one) together with lease state leased. -/
theorem update_drift_renew_fail_uses_fresh_token
    (envGet envRenew envCreate : ClientEnv) (plan state : BlobLeaseResourceModel)
    (newLeaseID : String) (props : BlobProps) (e : String) (r : BlobLeaseResult)
    (hG1 : envGet.newClient = none) (hG2 : envGet.getProps = Except.ok props)
    (hDrift : observedLeaseState props ≠ "leased")
    (hRenew : (RenewBlobLease envRenew (updateRenewConfig plan state)).1 = Except.error e)
    (hCreate : (CreateBlobWithLease envCreate
        (updateFallbackConfig plan state newLeaseID)).1 = Except.ok r)
    (hEcho : ∀ s d, envCreate.acquire s d = Except.ok s)
    (hFresh : newLeaseID ≠ state.leaseID.valueString) :
    (resourceUpdate envGet envRenew envCreate plan state newLeaseID).1 =
      Except.ok { plan with
        leaseID := TFString.value newLeaseID,
        etag := TFString.value r.etag,
        leaseState := TFString.value "leased",
        blobURL := TFString.value (blobURL plan.storageAccount.valueString
          plan.containerName.valueString plan.blobName.valueString) } ∧
    TFString.value newLeaseID ≠ TFString.value state.leaseID.valueString ∧
    CallEvent.upload plan.storageAccount.valueString plan.containerName.valueString
        plan.blobName.valueString (resolveContent plan.content) ∈
      (resourceUpdate envGet envRenew envCreate plan state newLeaseID).2 := by
  obtain ⟨hup, hacq, hurl, hls, htr⟩ := create_ok_inv hCreate
  rw [hEcho] at hacq
  injection hacq with hrl
  have hdrift := resourceUpdate_drift envGet envRenew envCreate plan state newLeaseID
    hG1 hG2 hDrift
  have hrep := updateRepair_fallback hRenew hCreate
  refine ⟨?_, ?_, ?_⟩
  · rw [hdrift]
    simp only
    rw [hrep]
    simp only [mbind, pureM]
    rw [← hrl, hls, hurl]
    exact rfl
  · intro hcontra
    injection hcontra with h2
    exact hFresh h2
  · rw [hdrift]
    simp only
    rw [hrep]
    simp only [mbind, pureM, List.append_nil]
    rw [htr]
    simp only [List.mem_cons, List.mem_append, List.mem_singleton]
    tauto

/-- C1 witness: a concrete drifted record whose renewal fails because the
properties read fails; the fallback acquisition succeeds with token t1,
distinct from the stored t0. -/
theorem update_drift_renew_fail_uses_fresh_token_witness :
    observedLeaseState propsExpired ≠ "leased" ∧
    (RenewBlobLease envDown (updateRenewConfig plan0 state0)).1 =
      Except.error "failed to get blob properties: boom" ∧
    "t1" ≠ state0.leaseID.valueString ∧
    (resourceUpdate envExpired envDown envExpired plan0 state0 "t1").1 =
      Except.ok { plan0 with
        leaseID := TFString.value "t1",
        etag := TFString.value "etag1",
        leaseState := TFString.value "leased",
        blobURL := TFString.value (blobURL "a" "c" "b") } :=
  ⟨by decide, rfl, by decide,
   (update_drift_renew_fail_uses_fresh_token envExpired envDown envExpired plan0 state0 "t1"
      propsExpired "failed to get blob properties: boom"
      { leaseID := "t1", blobURL := blobURL "a" "c" "b", etag := "etag1", leaseState := "leased" }
      rfl rfl (by decide) rfl rfl (fun s d => rfl) (by decide)).1⟩

/-- C2 counterexample: a concrete Update run on a drifted record with
stored token t0.  RenewBlobLease observes the lease expired and therefore
re-acquires, passing the previously stored token t0 to the acquire
primitive; the full trace shows the acquire was called with t0 and no
renew call happened, and the run succeeds still holding t0, so the stored
token is reused across a release-and-reacquire cycle. -/
theorem update_reacquire_reuses_stored_token_cex :
    state0.leaseID = TFString.value "t0" ∧
    resourceUpdate envExpired envExpired envExpired plan0 state0 "t1" =
      (Except.ok { plan0 with
        leaseID := TFString.value "t0",
        etag := TFString.value "etag0",
        leaseState := TFString.value "leased",
        blobURL := TFString.value (blobURL "a" "c" "b") },
       [CallEvent.getProperties "a" "c" "b", CallEvent.getProperties "a" "c" "b",
        CallEvent.acquireLease "a" "c" "b" "t0" (-1)]) := ⟨rfl, rfl⟩

/-- C2 amended: during Update, every token passed to the acquire
primitive is either the stored token (RenewBlobLease re-acquires with the
caller-supplied stored token when the lease is not held) or the freshly
generated token (used only by the fallback after RenewBlobLease fails);
a fresh token is therefore not guaranteed on re-acquisition. -/
theorem update_acquire_token_provenance
    (envGet envRenew envCreate : ClientEnv) (plan state : BlobLeaseResourceModel)
    (newLeaseID : String) (a c b lid : String) (d : Int)
    (h : CallEvent.acquireLease a c b lid d ∈
      (resourceUpdate envGet envRenew envCreate plan state newLeaseID).2) :
    lid = state.leaseID.valueString ∨ lid = newLeaseID := by
  unfold resourceUpdate at h
  rw [mem_mbind] at h
  rcases h with h | ⟨lr, hlr, h⟩
  · rw [mapFailure_snd] at h
    exact absurd (mem_getState_trace h) (by simp)
  · split at h
    · rw [mem_mbind] at h
      rcases h with h | ⟨r, hr, h⟩
      · rcases mem_updateRepair_trace h with h2 | h2
        · rcases mem_renew_trace h2 with h3 | h3 | h3
          · exact absurd h3 (by simp)
          · injection h3 with e1 e2 e3 e4 e5
            exact Or.inl e4
          · exact absurd h3 (by simp)
        · rcases mem_create_trace h2 with h3 | h3 | h3
          · exact absurd h3 (by simp)
          · exact absurd h3 (by simp)
          · injection h3 with e1 e2 e3 e4 e5
            exact Or.inr e4
      · simp [pureM] at h
    · simp [pureM] at h

/-- C2 amended witness: in the counterexample run the acquire token t0 is
indeed one of stored-or-fresh. -/
theorem update_acquire_token_provenance_witness :
    CallEvent.acquireLease "a" "c" "b" "t0" (-1) ∈
      (resourceUpdate envExpired envExpired envExpired plan0 state0 "t1").2 ∧
    ("t0" = state0.leaseID.valueString ∨ "t0" = "t1") :=
  ⟨by decide, update_acquire_token_provenance envExpired envExpired envExpired plan0 state0
      "t1" "a" "c" "b" "t0" (-1) (by decide)⟩

/-- C10: every successful CreateBlobWithLease result, every successful
RenewBlobLease result (renew path and internal re-acquire path alike),
and every successful repair inside Update carry the hard-coded lease
state leased, and Create records lease_state leased on success. -/
theorem client_success_hardcodes_leased (env env2 env3 envR envC : ClientEnv)
    (config config2 : BlobLeaseConfig) (plan state : BlobLeaseResourceModel)
    (newLeaseID : String) :
    (∀ r, (CreateBlobWithLease env config).1 = Except.ok r → r.leaseState = "leased") ∧
    (∀ r, (RenewBlobLease env2 config2).1 = Except.ok r → r.leaseState = "leased") ∧
    (∀ r, (updateRepair envR envC plan state newLeaseID).1 = Except.ok r →
      r.leaseState = "leased") ∧
    (∀ m, (resourceCreate env3 plan newLeaseID).1 = Except.ok m →
      m.leaseState = TFString.value "leased") := by
  refine ⟨fun r h => (create_ok_inv h).2.2.2.1, fun r h => renew_ok_leaseState h,
    fun r h => updateRepair_ok_leaseState h, fun m h => ?_⟩
  obtain ⟨r, hc, hid, hls⟩ := resourceCreate_ok_inv h
  rw [hls, (create_ok_inv hc).2.2.2.1]

/-- C10 witness: concrete successful create, renew and resource-level
create runs all report leased. -/
theorem client_success_hardcodes_leased_witness :
    (CreateBlobWithLease envExpired (createConfig plan0 "t1")).1 =
      Except.ok { leaseID := "t1", blobURL := blobURL "a" "c" "b",
                  etag := "etag1", leaseState := "leased" } ∧
    BlobLeaseResult.leaseState
      { leaseID := "t1", blobURL := blobURL "a" "c" "b",
        etag := "etag1", leaseState := "leased" } = "leased" :=
  ⟨rfl,
   (client_success_hardcodes_leased envExpired envExpired envExpired envExpired envExpired
      (createConfig plan0 "t1") (createConfig plan0 "t1") plan0 state0 "t1").1
     { leaseID := "t1", blobURL := blobURL "a" "c" "b", etag := "etag1", leaseState := "leased" }
     rfl⟩


/-- Oracle whose release fails with the tolerated lease-not-present
class and whose deletion succeeds. -/
def envRelGone : ClientEnv := { envExpired with release := some "LeaseNotPresentWithBlobOperation" }

/-- Oracle whose upload succeeds but whose acquire fails. -/
def envAcqFail : ClientEnv :=
  { envExpired with acquire := fun _ _ => Except.error "LeaseAlreadyPresent" }

/-- Oracle for a store in which the blob is absent: every remote call
fails with a message carrying the 404 BlobNotFound classification that
the code itself uses for absence (BlobExists reports false on it).
Modelled from the spec: the remote store is out of scope and reports
NotFound for operations on an absent object (sections 4.1 and 7). -/
def envAbsent : ClientEnv :=
  { newClient := none, createContainer := none,
    upload := Except.error "404 BlobNotFound",
    newLeaseClient := none, acquire := fun _ _ => Except.error "404 BlobNotFound",
    getProps := Except.error "404 BlobNotFound",
    renew := Except.error "404 BlobNotFound",
    release := some "404 BlobNotFound", deleteCall := some "404 BlobNotFound" }

/-- C4: in Delete, a release failure whose message carries neither
tolerated class aborts the operation with an error before the blob
deletion is attempted (no delete call appears in the trace), while a
failure of either tolerated class is treated as success and deletion
proceeds. -/
theorem delete_release_failure_policy (env : ClientEnv) (state : BlobLeaseResourceModel)
    (e : String)
    (hNC : env.newClient = none) (hNL : env.newLeaseClient = none)
    (hRel : env.release = some e) :
    (strContains e "LeaseNotPresentWithBlobOperation" = false →
     strContains e "LeaseIdMismatchWithBlobOperation" = false →
      (resourceDelete env state).1 =
        Except.error ("Unable to release lease and delete blob, got error: " ++
          ("failed to release lease on blob " ++ state.blobName.valueString ++ ": " ++ e)) ∧
      (∀ a c b, CallEvent.deleteBlob a c b ∉ (resourceDelete env state).2)) ∧
    ((strContains e "LeaseNotPresentWithBlobOperation" ||
      strContains e "LeaseIdMismatchWithBlobOperation") = true →
      CallEvent.deleteBlob state.storageAccount.valueString state.containerName.valueString
          state.blobName.valueString ∈ (resourceDelete env state).2) := by
  constructor
  · intro h4 h5
    have hf := release_fatal (deleteConfig state) hNC hNL hRel h4 h5
    constructor
    · unfold resourceDelete
      rw [hf]
      exact rfl
    · intro a c b hmem
      unfold resourceDelete at hmem
      rw [mapFailure_snd, hf] at hmem
      simp at hmem
  · intro h4
    have hf := release_tolerated (deleteConfig state) hNC hNL hRel h4
    unfold resourceDelete
    rw [mapFailure_snd, hf]
    exact List.Mem.tail _ (List.Mem.head _)

/-- C4 witness: a tolerated release failure lets deletion proceed. -/
theorem delete_release_failure_policy_witness :
    envRelGone.release = some "LeaseNotPresentWithBlobOperation" ∧
    CallEvent.deleteBlob "a" "c" "b" ∈ (resourceDelete envRelGone state0).2 :=
  ⟨rfl, (delete_release_failure_policy envRelGone state0 "LeaseNotPresentWithBlobOperation"
      rfl rfl rfl).2 (by decide)⟩

/-- C5: any failure of the underlying create-with-lease call makes Create
return an error (so nothing is recorded), in particular when the payload
upload succeeded but the acquisition failed; and Create never falls back:
its trace never contains a renew call and every acquire call carries the
single generated token. -/
theorem create_failure_always_reported (env : ClientEnv) (plan : BlobLeaseResourceModel)
    (newLeaseID : String) :
    (∀ e, (CreateBlobWithLease env (createConfig plan newLeaseID)).1 = Except.error e →
      (resourceCreate env plan newLeaseID).1 =
        Except.error ("Unable to create blob with lease, got error: " ++ e)) ∧
    (∀ etag eAcq, env.upload = Except.ok etag →
      env.acquire newLeaseID (-1) = Except.error eAcq →
      ∀ m, (resourceCreate env plan newLeaseID).1 ≠ Except.ok m) ∧
    (∀ a c b lid, CallEvent.renewLease a c b lid ∉ (resourceCreate env plan newLeaseID).2) ∧
    (∀ a c b lid d, CallEvent.acquireLease a c b lid d ∈ (resourceCreate env plan newLeaseID).2 →
      lid = newLeaseID) := by
  refine ⟨fun e h => resourceCreate_err h, ?_, ?_, ?_⟩
  · intro etag eAcq hup hacq m hok
    obtain ⟨r, hc, hid, hls⟩ := resourceCreate_ok_inv hok
    obtain ⟨hup2, hacq2, hurl, hls2, htr⟩ := create_ok_inv hc
    have hconv : env.acquire newLeaseID (-1) = Except.ok r.leaseID := hacq2
    rw [hacq] at hconv
    exact absurd hconv (by simp)
  · intro a c b lid hmem
    rw [resourceCreate_snd] at hmem
    rcases mem_create_trace hmem with h | h | h <;> exact absurd h (by simp)
  · intro a c b lid d hmem
    rw [resourceCreate_snd] at hmem
    rcases mem_create_trace hmem with h | h | h
    · exact absurd h (by simp)
    · exact absurd h (by simp)
    · injection h with e1 e2 e3 e4 e5

/-- C5 witness: the upload succeeded but the acquisition failed, and
Create reports the error. -/
theorem create_failure_always_reported_witness :
    envAcqFail.upload = Except.ok "etag1" ∧
    envAcqFail.acquire "t1" (-1) = Except.error "LeaseAlreadyPresent" ∧
    (resourceCreate envAcqFail plan0 "t1").1 =
      Except.error
        "Unable to create blob with lease, got error: failed to acquire lease on blob b: LeaseAlreadyPresent" :=
  ⟨rfl, rfl,
   (create_failure_always_reported envAcqFail plan0 "t1").1
     "failed to acquire lease on blob b: LeaseAlreadyPresent" rfl⟩

/-- C6 counterexample: after a successful Delete the blob and its lease
are absent, which the code itself classifies as a 404 BlobNotFound
properties failure (BlobExists reports false on this oracle).  A second
Delete against such a store returns an error: the release failure carries
BlobNotFound, which is not one of the two tolerated classes, so absence
is not tolerated as already-released. -/
theorem delete_second_call_errors_cex :
    (BlobExists envAbsent "a" "c" "b").1 = Except.ok false ∧
    (resourceDelete envAbsent state0).1 =
      Except.error
        "Unable to release lease and delete blob, got error: failed to release lease on blob b: 404 BlobNotFound" :=
  ⟨rfl, rfl⟩

/-- C6 amended: Delete is not idempotent: a second Delete, invoked when
the blob is absent (a 404 BlobNotFound properties failure, which
BlobExists classifies as absence) so that the release fails with a
message outside the two tolerated classes, returns an error instead of
tolerating absence as already-released. -/
theorem delete_second_call_not_idempotent (env : ClientEnv) (state : BlobLeaseResourceModel)
    (e : String)
    (hNC : env.newClient = none) (hNL : env.newLeaseClient = none)
    (_hAbsent : (BlobExists env state.storageAccount.valueString state.containerName.valueString
        state.blobName.valueString).1 = Except.ok false)
    (hRel : env.release = some e)
    (h4 : strContains e "LeaseNotPresentWithBlobOperation" = false)
    (h5 : strContains e "LeaseIdMismatchWithBlobOperation" = false) :
    (resourceDelete env state).1 =
      Except.error ("Unable to release lease and delete blob, got error: " ++
        ("failed to release lease on blob " ++ state.blobName.valueString ++ ": " ++ e)) := by
  have hf := release_fatal (deleteConfig state) hNC hNL hRel h4 h5
  unfold resourceDelete
  rw [hf]
  exact rfl

/-- C6 amended witness at the absent-blob oracle. -/
theorem delete_second_call_not_idempotent_witness :
    (BlobExists envAbsent "a" "c" "b").1 = Except.ok false ∧
    strContains "404 BlobNotFound" "LeaseNotPresentWithBlobOperation" = false ∧
    (resourceDelete envAbsent state0).1 =
      Except.error
        "Unable to release lease and delete blob, got error: failed to release lease on blob b: 404 BlobNotFound" :=
  ⟨rfl, rfl,
   delete_second_call_not_idempotent envAbsent state0 "404 BlobNotFound"
     rfl rfl rfl rfl (by decide) (by decide)⟩

/-- Does a loop event denote a tick whose renewal succeeds. -/
def tickOk (config : BlobLeaseConfig) : LoopEvent → Bool
  | LoopEvent.cancel _ => false
  | LoopEvent.tick env =>
    match (RenewBlobLease env config).1 with
    | Except.ok _ => true
    | Except.error _ => false

/-- The loop runs past any prefix of successful ticks. -/
theorem startLeaseRenewal_skip (config : BlobLeaseConfig) (pre evs : List LoopEvent)
    (h : pre.all (tickOk config) = true) :
    StartLeaseRenewal config (pre ++ evs) = StartLeaseRenewal config evs := by
  induction pre with
  | nil => rfl
  | cons ev rest ih =>
    rw [List.all_cons, Bool.and_eq_true] at h
    cases ev with
    | cancel e => simp [tickOk] at h
    | tick env =>
      rw [List.cons_append]
      show (match (RenewBlobLease env config).1 with
        | Except.error e =>
          LoopOutcome.terminated (some ("failed to renew lease during background renewal: " ++ e))
        | Except.ok _ => StartLeaseRenewal config (rest ++ evs)) = _
      cases hr : (RenewBlobLease env config).1 with
      | error e =>
        rw [tickOk] at h
        rw [hr] at h
        exact absurd h.1 (by simp)
      | ok r => exact ih h.2

/-- C9 counterexample: termination caused by external cancellation is not
error-free: the loop returns ctx.Err(), the non-nil context error, in
that branch. -/
theorem renewal_loop_cancel_error_cex :
    StartLeaseRenewal (createConfig plan0 "t0") [LoopEvent.cancel "context canceled"] =
      LoopOutcome.terminated (some "context canceled") ∧
    StartLeaseRenewal (createConfig plan0 "t0") [LoopEvent.cancel "context canceled"] ≠
      LoopOutcome.terminated none := ⟨rfl, by decide⟩

/-- C9 amended: a renewal failure on any tick, after any prefix of
successful ticks, terminates the loop and reports that failure upward
(never silently swallowed); termination by external cancellation returns
the context error ctx.Err(), which is non-nil, rather than no error. -/
theorem renewal_loop_failure_terminates (config : BlobLeaseConfig) (pre rest : List LoopEvent)
    (env : ClientEnv) (e ctxErr : String) (rest2 : List LoopEvent)
    (hpre : pre.all (tickOk config) = true)
    (hFail : (RenewBlobLease env config).1 = Except.error e) :
    StartLeaseRenewal config (pre ++ LoopEvent.tick env :: rest) =
      LoopOutcome.terminated (some ("failed to renew lease during background renewal: " ++ e)) ∧
    StartLeaseRenewal config (LoopEvent.cancel ctxErr :: rest2) =
      LoopOutcome.terminated (some ctxErr) := by
  constructor
  · rw [startLeaseRenewal_skip config pre _ hpre]
    show (match (RenewBlobLease env config).1 with
      | Except.error e =>
        LoopOutcome.terminated (some ("failed to renew lease during background renewal: " ++ e))
      | Except.ok _ => StartLeaseRenewal config rest) = _
    rw [hFail]
  · rfl

/-- C9 amended witness: one failing tick terminates the loop with the
wrapped error. -/
theorem renewal_loop_failure_terminates_witness :
    (RenewBlobLease envDown (createConfig plan0 "t0")).1 =
      Except.error "failed to get blob properties: boom" ∧
    StartLeaseRenewal (createConfig plan0 "t0") [LoopEvent.tick envDown] =
      LoopOutcome.terminated
        (some "failed to renew lease during background renewal: failed to get blob properties: boom") :=
  ⟨rfl, (renewal_loop_failure_terminates (createConfig plan0 "t0") [] [] envDown
      "failed to get blob properties: boom" "x" [] rfl rfl).1⟩

end Blobleas
